import Mathlib

/-!
# Verification of the csg_node conversion core (OpenSCAD .csg → xcsg)

Shallow embedding of `csg_node.cpp` (the tree builder / parameter parser /
dimension resolver / schema mapper of the xcsg repository).  C++ `std::string`
is modelled as `List Char`, `double` as `ℚ` (exact arithmetic), machine `int`
as `ℤ`, `size_t` counters as `ℕ`.  A C++ `throw std::runtime_error(msg)` is
modelled as `Except.error (Fault.err msg)`; dereferencing an invalid iterator
or null pointer (C++ undefined behaviour) is modelled as
`Except.error Fault.ub`.
-/

/-- Convenience: the `List Char` contents of a string literal. -/
def str (s : String) : List Char := s.toList

/-- A single-quote character (ASCII 39), used inside error-message text. -/
def sqc : Char := Char.ofNat 39

/-- Decimal digits of a natural number, as produced by `std::to_string`. -/
def natStr (n : Nat) : List Char := Nat.toDigits 10 n

/-- Outcome of a C++ operation that can fail: `err msg` models
`throw std::runtime_error(msg)`; `ub` models undefined behaviour
(dereferencing an end iterator or a null `shared_ptr`). -/
inductive Fault : Type where
  | err (msg : List Char) : Fault
  | ub : Fault
deriving DecidableEq

/-- Modelled from the spec (§3, §6): `csg_value` is an external literal-value
library ("a numeric literal parser/value object library (csg_value) ... the
core consumes this as a capability, not implements it").  A value is a
recursive variant: a scalar literal or a vector of values.  The scalar carries
the literal text it was parsed from. -/
inductive CsgValue : Type where
  | scalar (s : List Char) : CsgValue
  | vector (vs : List CsgValue) : CsgValue

/-- Modelled from the spec (§6): `Value.size()`.  A scalar reports size 1, a
vector the number of its elements. -/
def CsgValue.size : CsgValue → Nat
  | .scalar _ => 1
  | .vector vs => vs.length

/-- Modelled from the spec (§6): `Value.to_string()`.  For a scalar it is the
literal text; the external library's rendering of vectors is never relied
upon by any claim verified here and is left as the empty string. -/
def CsgValue.to_string : CsgValue → List Char
  | .scalar s => s
  | .vector _ => []

mutual

/-- The node of the CSG tree (`csg_node`): the signature string `m_func`, the
source line `m_line_no`, the parameter map `m_par` (an association list looked
up by name only), and the owned children `m_children`.  The children live in
the companion type `CsgForest` so that the recursive functions of the source
(`is_dummy`, `dimension`, ...) can be defined by structural recursion. -/
inductive CsgNode : Type where
  | mk (func : List Char) (lineNo : Nat)
       (params : List (List Char × CsgValue)) (children : CsgForest) : CsgNode

/-- The ordered child list `m_children` of a `csg_node`. -/
inductive CsgForest : Type where
  | nil : CsgForest
  | cons (c : CsgNode) (cs : CsgForest) : CsgForest

end

def CsgNode.func : CsgNode → List Char
  | .mk f _ _ _ => f

def CsgNode.lineNo : CsgNode → Nat
  | .mk _ l _ _ => l

def CsgNode.params : CsgNode → List (List Char × CsgValue)
  | .mk _ _ p _ => p

def CsgNode.children : CsgNode → CsgForest
  | .mk _ _ _ cs => cs

/-- `csg_node::tag()` (lines 109–113): the signature text before the first
`'('` (when no `'('` occurs, `substr(0, npos)` is the whole string, which
`takeWhile` reproduces). -/
def CsgNode.tag (n : CsgNode) : List Char :=
  n.func.takeWhile (fun c => c ≠ '(')

/-- `csg_node::par()` (lines 115–119): the signature text from the first
`'('` on.  (When no `'('` occurs the C++ `substr(npos)` throws
`std::out_of_range`; every signature handled by the claims contains
parentheses, and this model then returns the empty remainder.) -/
def CsgNode.par (n : CsgNode) : List Char :=
  n.func.drop (n.func.takeWhile (fun c => c ≠ '(')).length

/-- `m_children.size()`. -/
def CsgForest.length : CsgForest → Nat
  | .nil => 0
  | .cons _ cs => 1 + cs.length

/-- The children as a plain list (for stating membership properties). -/
def CsgForest.toList : CsgForest → List CsgNode
  | .nil => []
  | .cons c cs => c :: cs.toList

mutual

/-- `csg_node::is_dummy()` (lines 234–245), translated exactly: for a `group`
tag with no children the function returns `true`; for a `group` tag with
children the loop returns `false` at the first non-dummy child, and when
every child is dummy the loop runs to completion and control falls through
to the final `return false`.  (Both arms of the inner `if` therefore yield
`false`; the dead branch is kept to mirror the source.) -/
def is_dummy : CsgNode → Bool
  | n@(.mk _ _ _ cs) =>
    if n.tag = str "group" then
      if cs.length = 0 then true
      else
        if forest_has_nondummy cs then false else false
    else false

/-- The scan of the loop in `is_dummy`: does some child fail `is_dummy`? -/
def forest_has_nondummy : CsgForest → Bool
  | .nil => false
  | .cons c cs => !(is_dummy c) || forest_has_nondummy cs

end

mutual

/-- The dummy predicate as the spec words it (§4.4): "A node is dummy iff its
tag is the wrapper/group tag and it has zero children, or all of its children
are themselves dummy (transitive)."  (Zero children is the base case of the
universally-quantified child condition.)  This is the comparison definition
for claim C1; `is_dummy` above is the source translation. -/
def is_dummy_spec : CsgNode → Bool
  | n@(.mk _ _ _ cs) => (n.tag = str "group") && forest_all_dummy_spec cs

def forest_all_dummy_spec : CsgForest → Bool
  | .nil => true
  | .cons c cs => is_dummy_spec c && forest_all_dummy_spec cs

end

/-- `csg_node::size_children()` (lines 380–387): the number of children that
are not dummy. -/
def size_children_forest : CsgForest → Nat
  | .nil => 0
  | .cons c cs => (if is_dummy c then 0 else 1) + size_children_forest cs

def size_children (n : CsgNode) : Nat :=
  size_children_forest n.children

/-- C1: For every node, `is_dummy` returns true exactly when the node's tag is
the wrapper/group tag and either it has zero children or all of its children
are themselves dummy, transitively.  THE CODE VIOLATES THIS: the child loop of
`csg_node::is_dummy` falls through to `return false` even when every child is
dummy (the `return true` after the loop is missing), so a group containing
only one empty group is reported non-dummy although the spec predicate (and
the evident intent of the otherwise-pointless loop) makes it dummy. -/
theorem is_dummy_transitive_bug :
    is_dummy (.mk (str "group()") 1 []
        (.cons (.mk (str "group()") 2 [] .nil) .nil)) = false
    ∧ is_dummy_spec (.mk (str "group()") 1 []
        (.cons (.mk (str "group()") 2 [] .nil) .nil)) = true
    ∧ is_dummy (.mk (str "group()") 1 [] .nil) = true := by
  exact ⟨rfl, rfl, rfl⟩

/-- `csg_node::par_name(ipos)` (lines 121–127): the generated name of a
positional parameter, `sprintf("_p%03d", ipos)`: the decimal digits of
`ipos`, zero-padded on the left to a minimum width of 3. -/
def par_name (ipos : Nat) : List Char :=
  let ds := natStr ipos
  str "_p" ++ List.replicate (3 - ds.length) '0' ++ ds

/-- `tokenize` (lines 29–47): split `input` at every character of `delims`,
keeping only the pieces of positive length, in order.  (The C++ loop scans
with `find_first_of`, pushing each non-empty piece between delimiter
positions and the non-empty tail.) -/
def tokenize (input : List Char) (delims : List Char) : List (List Char) :=
  tokenize_go input delims [] []
where
  tokenize_go : List Char → List Char → List Char → List (List Char) →
      List (List Char)
    | [], _, cur, acc => if cur.length > 0 then acc ++ [cur] else acc
    | c :: rest, ds, cur, acc =>
      if c ∈ ds then
        if cur.length > 0 then tokenize_go rest ds [] (acc ++ [cur])
        else tokenize_go rest ds [] acc
      else tokenize_go rest ds (cur ++ [c]) acc

/-- The scan of `csg_node::par_value` (lines 193–214) from position `istart`
on: walks the remaining characters tracking the bracket depth `inside`
(a C++ `size_t`; modelled as `ℤ`, whose `-1`/`+1` behaviour around zero is
observationally identical to the wrap-around of `size_t` for any input
shorter than `2^63` characters).  Returns the accumulated value text and the
unconsumed tail, in which a parameter-separating comma has been replaced by
a blank (`param[i] = ' '`). -/
def par_value_go : List Char → Int → List Char → List Char × List Char
  | [], _, value => (value, [])
  | c :: tl, inside, value =>
    let inside1 : Int := if c = '[' then inside + 1 else inside
    if c = ',' ∧ inside1 = 0 then (value, ' ' :: tl)
    else
      let inside2 : Int := if c = ']' then inside1 - 1 else inside1
      if c = ']' ∧ inside2 = 0 then (value ++ [c], tl)
      else par_value_go tl inside2 (value ++ [c])

/-- `csg_node::par_value(param, istart)` (lines 193–214): the next value
substring of the parameter list, and the parameter list after the in-place
comma blanking.  Every scanned character except a breaking comma is appended
to the value (a breaking outer `']'` included), so the mutated string is
`prefix ++ value ++ tail`. -/
def par_value (param : List Char) (istart : Nat) : List Char × List Char :=
  let r := par_value_go (param.drop istart) 0 []
  (r.1, param.take istart ++ r.1 ++ r.2)

/-- Modelled from the spec (§4.1, §6): the external literal parser
`csg_value::parse(raw, line)`, which returns a parsed value object (`null`
only for unparseable text, which is then silently dropped from the mapping).
The claims verified here depend only on which parameter names receive values,
so the model wraps the raw text; the scalar/vector structure produced by the
external library is immaterial to them. -/
def csg_value_parse (raw : List Char) (_lineNo : Nat) : Option CsgValue :=
  some (.scalar raw)

/-- `m_par[name] = value` on the `unordered_map`: overwrite the entry if the
key is present, insert it otherwise.  (The map is looked up by name only; we
keep first-insertion order.) -/
def mapAssign (m : List (List Char × CsgValue)) (k : List Char) (v : CsgValue) :
    List (List Char × CsgValue) :=
  if (m.lookup k).isSome then m.map (fun p => if p.1 = k then (k, v) else p)
  else m ++ [(k, v)]

/-- The `while(params.size() > 0)` loop of `csg_node::parse_params`
(lines 165–185), translated exactly; in particular the position counter
`iparam` is carried but NEVER incremented, as in the source, and the
left-truncation always assumes `name.length()+1` characters of name text
even for a positional parameter whose generated name does not occur in the
string.  `fuel` is a structural-recursion bound only: each iteration either
ends the loop or strictly shortens `params` (the truncation length is at
least 2), so `params.length + 1` steps always suffice. -/
def parse_params_loop (lineNo : Nat) :
    Nat → List Char → Nat → List (List Char × CsgValue) →
      List (List Char × CsgValue)
  | 0, _, _, m => m
  | fuel + 1, params, iparam, m =>
    if params.length = 0 then m
    else
      let r :=
        match params.findIdx? (fun c => c = '=') with
        | none => (par_name iparam, par_value params 0)
        | some i => (params.take i, par_value params (i + 1))
      let name := r.1
      let value_str := r.2.1
      let params1 := r.2.2
      let m1 :=
        match csg_value_parse value_str lineNo with
        | some v => mapAssign m name v
        | none => m
      let len := name.length + 1 + value_str.length + 1
      let params2 := if len ≤ params1.length then params1.drop len else []
      parse_params_loop lineNo fuel params2 iparam m1

/-- `csg_node::parse_params()` (lines 150–187): strip the enclosing
parentheses of `par()` with `tokenize`, then run the parameter loop on the
first token (an empty token list yields an empty mapping). -/
def parse_params (func : List Char) (lineNo : Nat) :
    List (List Char × CsgValue) :=
  let params := (CsgNode.mk func lineNo [] .nil).par
  match tokenize params [ '(' , ')' ] with
  | [] => []
  | t0 :: _ => parse_params_loop lineNo (t0.length + 1) t0 0 []

/-- C3: For every signature with unnamed (positional) parameters, the parser
stores the i-th positional parameter under `_p000`, `_p001`, ....  THE CODE
VIOLATES THIS for every signature with at least two positional parameters:
`par_name` does generate position-encoded names (`par_name 1 = "_p001"`),
but the loop never increments its position counter `iparam`, and its
left-truncation step assumes the generated name occupies name-text in the
signature, so after the first positional parameter it over-consumes the
remainder: `f(1,2)` yields a mapping holding only `_p000 ↦ "1"`, and the
second positional parameter is not retrievable under `_p001` (it is dropped
wholesale). -/
theorem parse_params_positional_names_bug :
    parse_params (str "f(1,2)") 1 = [(par_name 0, CsgValue.scalar (str "1"))]
    ∧ (parse_params (str "f(1,2)") 1).lookup (str "_p001") = none
    ∧ par_name 0 = str "_p000" ∧ par_name 1 = str "_p001" := by
  exact ⟨rfl, rfl, rfl, rfl⟩

/-- The `".csg file line " + std::to_string(m_line_no)` diagnostic prefix
used by the conversion errors. -/
def lineMsg (lineNo : Nat) : List Char :=
  str ".csg file line " ++ natStr lineNo

/-- `csg_node::get_scalar(name)` (lines 247–255): return the value's text if
`name` is in the parameter map, otherwise throw an error naming the
parameter and the node's tag. -/
def get_scalar (n : CsgNode) (name : List Char) : Except Fault (List Char) :=
  match n.params.lookup name with
  | some v => .ok v.to_string
  | none =>
    .error (.err (str "csg_node::get_scalar(), " ++ lineMsg n.lineNo ++
      str " parameter " ++ [sqc] ++ name ++ [sqc] ++
      str " not found for " ++ n.tag))

/-- `csg_node::get_value(name)` (lines 257–265): return the value object if
`name` is in the parameter map, otherwise throw an error naming the
parameter and the node's tag. -/
def get_value (n : CsgNode) (name : List Char) : Except Fault CsgValue :=
  match n.params.lookup name with
  | some v => .ok v
  | none =>
    .error (.err (str "csg_node::get_value(), " ++ lineMsg n.lineNo ++
      str " parameter " ++ [sqc] ++ name ++ [sqc] ++
      str " not found for " ++ n.tag))

/-- The parameter fetch of the `offset2d` encoder (lines 495–504): `r`,
`delta` and `chamfer` are looked up directly in the map; `delta` takes the
value of `r` when present, otherwise of `delta` — and when BOTH are absent,
`id->second` dereferences the end iterator (undefined behaviour, `Fault.ub`),
with no error message.  Returns the value written as `delta` (its numeric
conversion by the external library is immaterial here) and the `round` and
`chamfer` attribute texts. -/
def offset2d_fetch (n : CsgNode) :
    Except Fault (CsgValue × List Char × List Char) :=
  let ir := n.params.lookup (str "r")
  let idelta := n.params.lookup (str "delta")
  let ich := n.params.lookup (str "chamfer")
  let chamfer :=
    match ich with
    | some v => v.to_string
    | none => str "false"
  match ir, idelta with
  | some v, _ => .ok (v, str "true", chamfer)
  | none, some v => .ok (v, str "false", chamfer)
  | none, none => .error .ub

/-- C4 counterexample: an `offset` node carrying neither `r` nor `delta`.
The offset2d encoder does not fail with an error naming the missing
parameter: it dereferences an invalid iterator (undefined behaviour). -/
theorem offset2d_missing_param_counterexample :
    offset2d_fetch (.mk (str "offset(chamfer=false)") 7
      [(str "chamfer", CsgValue.scalar (str "false"))] .nil) = .error .ub := by
  exact rfl

/-- C4 (amended): a required parameter fetched through `get_scalar` /
`get_value` raises a hard failure whose message names the missing parameter
and the node's tag with the source line; but the `offset2d` encoder reads
`r`/`delta` directly from the parameter map, and when both are absent it
dereferences an invalid iterator (undefined behaviour) instead of raising a
named error. -/
theorem get_missing_param_amended :
    (∀ (n : CsgNode) (name : List Char), n.params.lookup name = none →
      get_scalar n name = .error (.err (str "csg_node::get_scalar(), " ++
          lineMsg n.lineNo ++ str " parameter " ++ [sqc] ++ name ++ [sqc] ++
          str " not found for " ++ n.tag))
      ∧ get_value n name = .error (.err (str "csg_node::get_value(), " ++
          lineMsg n.lineNo ++ str " parameter " ++ [sqc] ++ name ++ [sqc] ++
          str " not found for " ++ n.tag)))
    ∧ (∀ n : CsgNode, n.params.lookup (str "r") = none →
        n.params.lookup (str "delta") = none →
        offset2d_fetch n = .error .ub) := by
  constructor
  · intro n name h
    constructor
    · simp only [get_scalar, h]
    · simp only [get_value, h]
  · intro n hr hd
    simp only [offset2d_fetch, hr, hd]

/-- Witness for `get_missing_param_amended` at a concrete node: a `sphere`
node with an empty parameter map, fetched for `r`. -/
theorem get_missing_param_amended_witness :
    get_scalar (.mk (str "sphere(r=1)") 4 [] .nil) (str "r") =
      .error (.err (str "csg_node::get_scalar(), " ++ lineMsg 4 ++
        str " parameter " ++ [sqc] ++ str "r" ++ [sqc] ++
        str " not found for " ++ str "sphere")) := by
  have h := (get_missing_param_amended.1
    (.mk (str "sphere(r=1)") 4 [] .nil) (str "r") rfl).1
  exact h.trans (by rfl)

/-- The sweep segment count of the `linear_extrude`-as-`sweep` encoder
(lines 597–602).  There `tw = -twist_degrees·π/180` (line 571) and
`nseg = static_cast<int>(36·|tw|/(2π))` when `|tw| > 0`; in exact real
arithmetic `36·|tw|/(2π) = 36·|twist_degrees|/360`, the π cancelling, so the
computation is carried out over `ℚ`.  `static_cast<int>` truncates toward
zero, which on this non-negative quantity is the floor.  `slices` is `-1`
when the parameter is absent (line 575); a positive `slices` larger than the
computed count replaces it. -/
def sweep_nseg (twist_degrees : ℚ) (slices : Int) : Int :=
  let nseg : Int :=
    if 0 < |twist_degrees| then ⌊36 * |twist_degrees| / 360⌋ else 1
  if 0 < slices ∧ nseg < slices then slices else nseg

/-- The number of `cpoint` control points the sweep encoder emits
(lines 614–643): one bottom point plus one per loop iteration
(`for iseg in [0, nseg)`, which runs `max nseg 0` times). -/
def sweep_cpoints (twist_degrees : ℚ) (slices : Int) : Int :=
  1 + max (sweep_nseg twist_degrees slices) 0

/-- C2 counterexample: for a twist of 15° with `slices` unset the code
truncates `36·15/360 = 1.5` to 1 segment, while the claimed formula
`ceil(36·|twist|/360)` gives 2. -/
theorem sweep_nseg_trunc_counterexample :
    sweep_nseg 15 (-1) = 1 ∧ ⌈(36 * (15 : ℚ)) / 360⌉ = 2 := by
  constructor
  · norm_num [sweep_nseg]
  · rw [Int.ceil_eq_iff] ; norm_num

/-- C2 (amended): the segment count is 1 when the twist is zero and the slice
count is ≤ 1 (yielding exactly 2 control points); when the twist is non-zero
the segment count is the TRUNCATION (floor, not ceiling) of
`36·|twist_degrees|/360`, raised to the explicit `slices` value when that is
larger; a twist of exactly 360° with `slices` unset yields 36 segments. -/
theorem sweep_nseg_amended :
    (∀ s : Int, s ≤ 1 → sweep_nseg 0 s = 1 ∧ sweep_cpoints 0 s = 2)
    ∧ (∀ t : ℚ, t ≠ 0 → sweep_nseg t (-1) = ⌊36 * |t| / 360⌋)
    ∧ (∀ (t : ℚ) (s : Int), t ≠ 0 → 0 < s → ⌊36 * |t| / 360⌋ < s →
        sweep_nseg t s = s)
    ∧ sweep_nseg 360 (-1) = 36 := by
  refine ⟨?_, ?_, ?_, by norm_num [sweep_nseg]⟩
  · intro s hs
    have h1 : ¬((0 : Int) < s ∧ (1 : Int) < s) := by omega
    constructor
    · simp only [sweep_nseg, abs_zero, lt_self_iff_false, if_false]
      rw [if_neg h1]
    · simp only [sweep_cpoints, sweep_nseg, abs_zero, lt_self_iff_false,
        if_false]
      rw [if_neg h1]
      omega
  · intro t ht
    have h1 : 0 < |t| := abs_pos.mpr ht
    simp only [sweep_nseg, h1, if_true]
    have h2 : ¬((0 : Int) < -1 ∧ ⌊36 * |t| / 360⌋ < -1) := by omega
    rw [if_neg h2]
  · intro t s ht hs hlt
    have h1 : 0 < |t| := abs_pos.mpr ht
    simp only [sweep_nseg, h1, if_true]
    have hc : (0 : Int) < s ∧ ⌊36 * |t| / 360⌋ < s := ⟨hs, hlt⟩
    rw [if_pos hc]

/-- Witness for `sweep_nseg_amended`: a twist of 90° with `slices` unset
gives `⌊36·90/360⌋ = 9` segments. -/
theorem sweep_nseg_amended_witness :
    sweep_nseg 90 (-1) = 9 := by
  have h := sweep_nseg_amended.2.1 90 (by norm_num)
  rw [h]
  norm_num

/-- C10: the computed segment count `nseg` is claimed non-zero for every
input reaching the per-segment division `dz/nseg`, `tw/nseg`.  THE CODE
VIOLATES THIS: for any non-zero twist of magnitude below 10° with no
explicit `slices`, the truncation `static_cast<int>(36·|tw|/(2π))` is 0
(e.g. twist = 5° gives `⌊0.5⌋ = 0`), `slices > 0` does not hold, and the
subsequent divisions divide by zero. -/
theorem sweep_nseg_zero_divisor :
    sweep_nseg 5 (-1) = 0 := by
  norm_num [sweep_nseg]

mutual

/-- `csg_node::dimension()` (lines 299–363): the node's own tag yields 2/3
directly for generator tags, throws for the four unsupported tags, otherwise
the children are inspected; a node with no children has dimension 0. -/
def dimension : CsgNode → Except Fault Nat
  | n@(.mk _ _ _ cs) =>
    if n.tag = str "circle" then .ok 2
    else if n.tag = str "square" then .ok 2
    else if n.tag = str "polygon" then .ok 2
    else if n.tag = str "projection" then .ok 2
    else if n.tag = str "sphere" then .ok 3
    else if n.tag = str "cylinder" then .ok 3
    else if n.tag = str "cube" then .ok 3
    else if n.tag = str "polyhedron" then .ok 3
    else if n.tag = str "linear_extrude" then .ok 3
    else if n.tag = str "rotate_extrude" then .ok 3
    else if n.tag = str "text" then
      .error (.err (str "OpenSCAD csg line " ++ natStr n.lineNo ++ str ", " ++
        [sqc] ++ str "text" ++ [sqc] ++ str " is not supported: " ++ n.func))
    else if n.tag = str "surface" then
      .error (.err (str "OpenSCAD csg line " ++ natStr n.lineNo ++ str ", " ++
        [sqc] ++ str "surface" ++ [sqc] ++ str " is not supported: " ++ n.func))
    else if n.tag = str "import" then
      .error (.err (str "OpenSCAD csg line " ++ natStr n.lineNo ++ str ", " ++
        [sqc] ++ str "import" ++ [sqc] ++
        str " is not supported with this file type: " ++ n.func))
    else if n.tag = str "resize" then
      .error (.err (str "OpenSCAD csg line " ++ natStr n.lineNo ++ str ", " ++
        [sqc] ++ str "resize" ++ [sqc] ++ str " is not supported: " ++ n.func))
    else if cs.length = 0 then .ok 0
    else dim_children cs

/-- The child loop of `dimension` (lines 326–360): skip dummy children; a
generator child tag yields its fixed dimension immediately (it is non-zero,
so the `if(dim>0) return dim` fires); a pass-through child tag (`group`,
`color`, `multmatrix` exactly, or the 4-character tag stems `unio`/`diff`/
`inte`/`mink`/`offs`/`rend`/`hull` — one `else if` each in the source, all
with the same body) resolves recursively and returns only a non-zero result;
the four unsupported tags throw (with the child's line and signature); any
other child tag leaves `dim` at 0 and the scan continues.  After the loop
the remaining value of `dim` (necessarily 0, every non-zero value having
returned) is returned. -/
def dim_children : CsgForest → Except Fault Nat
  | .nil => .ok 0
  | .cons c cs =>
    if is_dummy c then dim_children cs
    else
      if c.tag = str "circle" then .ok 2
      else if c.tag = str "square" then .ok 2
      else if c.tag = str "polygon" then .ok 2
      else if c.tag = str "projection" then .ok 2
      else if c.tag = str "sphere" then .ok 3
      else if c.tag = str "cylinder" then .ok 3
      else if c.tag = str "cube" then .ok 3
      else if c.tag = str "polyhedron" then .ok 3
      else if c.tag = str "linear_extrude" then .ok 3
      else if c.tag = str "rotate_extrude" then .ok 3
      else if c.tag = str "group" ∨ c.tag = str "color" ∨
          c.tag = str "multmatrix" ∨ c.tag.take 4 = str "unio" ∨
          c.tag.take 4 = str "diff" ∨ c.tag.take 4 = str "inte" ∨
          c.tag.take 4 = str "mink" ∨ c.tag.take 4 = str "offs" ∨
          c.tag.take 4 = str "rend" ∨ c.tag.take 4 = str "hull" then
        match dimension c with
        | .error e => .error e
        | .ok d => if 0 < d then .ok d else dim_children cs
      else if c.tag = str "text" then
        .error (.err (str "OpenSCAD csg line " ++ natStr c.lineNo ++
          str ", " ++ [sqc] ++ str "text" ++ [sqc] ++
          str " is not supported: " ++ c.func))
      else if c.tag = str "surface" then
        .error (.err (str "OpenSCAD csg line " ++ natStr c.lineNo ++
          str ", " ++ [sqc] ++ str "surface" ++ [sqc] ++
          str " is not supported: " ++ c.func))
      else if c.tag = str "import" then
        .error (.err (str "OpenSCAD csg line " ++ natStr c.lineNo ++
          str ", " ++ [sqc] ++ str "import" ++ [sqc] ++
          str " is not supported with this file type: " ++ c.func))
      else if c.tag = str "resize" then
        .error (.err (str "OpenSCAD csg line " ++ natStr c.lineNo ++
          str ", " ++ [sqc] ++ str "resize" ++ [sqc] ++
          str " is not supported: " ++ c.func))
      else dim_children cs

end

/-- `csg_node::configure_xmap()` (lines 52–88): the static source-tag →
target-tag-template table. -/
def xmap (t : List Char) : Option (List Char) :=
  if t = str "cube" then some (str "cuboid")
  else if t = str "cylinder" then some (str "cone")
  else if t = str "polyhedron" then some (str "polyhedron")
  else if t = str "sphere" then some (str "sphere")
  else if t = str "linear_extrude" then some (str "sweep")
  else if t = str "rotate_extrude" then some (str "rotate_extrude")
  else if t = str "group" then some (str "union*")
  else if t = str "union" then some (str "union*")
  else if t = str "color" then some (str "union*")
  else if t = str "multmatrix" then some (str "union*")
  else if t = str "render" then some (str "union*")
  else if t = str "difference" then some (str "difference*")
  else if t = str "intersection" then some (str "intersection*")
  else if t = str "hull" then some (str "hull*")
  else if t = str "minkowski" then some (str "minkowski*")
  else if t = str "circle" then some (str "circle")
  else if t = str "polygon" then some (str "polygon")
  else if t = str "square" then some (str "rectangle")
  else if t = str "offset" then some (str "offset2d")
  else if t = str "projection" then some (str "projection2d")
  else if t = str "import" then some (str "N/A")
  else if t = str "surface" then some (str "N/A")
  else if t = str "text" then some (str "N/A")
  else if t = str "resize" then some (str "N/A")
  else none

/-- `csg_node::fix_tag(tag)` (lines 365–378): when the template contains a
`'*'` (`find_first_of`, anywhere in the string), drop the LAST character and
append `2d`/`3d` according to `dimension()`; for any other dimension the
original template is returned unchanged.  A template without `'*'` is
returned unchanged without consulting the dimension. -/
def fix_tag (n : CsgNode) (tag : List Char) : Except Fault (List Char) :=
  if '*' ∈ tag then
    match dimension n with
    | .error e => .error e
    | .ok d =>
      if d = 2 then .ok (tag.dropLast ++ str "2d")
      else if d = 3 then .ok (tag.dropLast ++ str "3d")
      else .ok tag
  else .ok tag

/-- The validation performed by `csg_node::assign_matrix()` (lines 268–283):
`m_par[par_name(0)]` default-inserts a null `shared_ptr` when the positional
parameter is absent, and the following `matrix->size()` dereferences it
(undefined behaviour); otherwise the value must be a 4-vector of 4-element
rows.  (The numeric entries are read through the external `to_double` and
are not validated further; the resulting matrix content is modelled where a
claim needs it, see `rotate_extrude_update`.) -/
def assign_matrix_check (n : CsgNode) : Except Fault Unit :=
  match n.params.lookup (par_name 0) with
  | none => .error .ub
  | some v =>
    if v.size ≠ 4 then
      .error (.err (str "csg_node::assign_matrix(), multimatrix size != 4 "))
    else
      match v with
      | .scalar _ =>
        .error (.err (str "csg_node::assign_matrix(), multimatrix size != 4 "))
      | .vector rows =>
        if rows.all (fun r => r.size = 4) then .ok ()
        else .error
          (.err (str "csg_node::assign_matrix(), multimatrix row size != 4 "))

/-- The error text of line 724 (`Fewer than 2 children provided to ...`). -/
def fewerMsg (lineNo : Nat) (op xt : List Char) : List Char :=
  lineMsg lineNo ++ str ": Fewer than 2 children provided to " ++ [sqc] ++
    op ++ [sqc] ++ str " --> " ++ xt

/-- The error text of lines 730/743 (`Mixed dimension children ...`). -/
def mixedMsg (lineNo : Nat) (op xt : List Char) : List Char :=
  lineMsg lineNo ++ str ": Mixed dimension children provided to " ++ [sqc] ++
    op ++ [sqc] ++ str " --> " ++ xt

/-- `std::unordered_set<size_t>::insert`: add `d` unless already present. -/
def insertDim (dims : List Nat) (d : Nat) : List Nat :=
  if d ∈ dims then dims else dims ++ [d]

/-- The per-child dimension-agreement loop of the boolean-operator branches
(lines 725–732 and, textually identical, lines 738–745): skip dummy
children, collect each non-dummy child's non-zero dimension into a set, and
throw the mixed-dimension error as soon as the set holds two elements.
A child whose own `dimension()` throws propagates that error. -/
def dims_loop (lineNo : Nat) (op xt : List Char) :
    CsgForest → List Nat → Except Fault Unit
  | .nil, _ => .ok ()
  | .cons c cs, dims =>
    if is_dummy c then dims_loop lineNo op xt cs dims
    else
      match dimension c with
      | .error e => .error e
      | .ok d =>
        let dims1 := if 0 < d then insertDim dims d else dims
        if 1 < dims1.length then .error (.err (mixedMsg lineNo op xt))
        else dims_loop lineNo op xt cs dims1

/-- The concrete target tags that dispatch into a shape-specific encoder body
(the `else if(xcsg_tag=="...")` chain of lines 430–718).  Those bodies are
modelled separately where a claim depends on them (`offset2d_fetch`,
`sweep_nseg`, `rotate_extrude_update`). -/
def shape_encoder_tags : List (List Char) :=
  [str "circle", str "rectangle", str "polygon", str "offset2d", str "cone",
   str "sphere", str "cuboid", str "linear_extrude", str "sweep",
   str "rotate_extrude", str "polyhedron", str "projection2d"]

/-- The tag-resolution part of `csg_node::to_xcsg(parent)` for a non-root
node (lines 402–428 and 754–756): a node whose `dimension()` is 0 returns
immediately with nothing emitted (line 407); a `multmatrix` node first runs
`assign_matrix` (lines 410–412); a tag absent from the mapping table emits
nothing (the `m_xmap.find` miss falls through to the children); otherwise
the template is resolved with `fix_tag`, an unresolved `'*'` throws
(line 755), and the single-non-dummy-child `difference`/`intersection`
degradation (lines 422–425) rewrites the tag before `add_child` receives it.
Returns the tag passed to `add_child`, `none` when no node is emitted. -/
def emitted_tag (n : CsgNode) : Except Fault (Option (List Char)) :=
  match dimension n with
  | .error e => .error e
  | .ok d =>
    if d = 0 then .ok none
    else
      match (if n.tag = str "multmatrix" then assign_matrix_check n
             else .ok ()) with
      | .error e => .error e
      | .ok _ =>
        match xmap n.tag with
        | none => .ok none
        | some tmpl =>
          match fix_tag n tmpl with
          | .error e => .error e
          | .ok xt =>
            if '*' ∈ xt then
              .error (.err (lineMsg n.lineNo ++
                str ": OpenSCAD node dimension could not be determined:" ++
                n.tag ++ str " --> " ++ xt ++ str ": " ++ n.func))
            else
              if xt = str "difference3d" ∧ size_children n = 1 then
                .ok (some (str "union3d"))
              else if xt = str "difference2d" ∧ size_children n = 1 then
                .ok (some (str "union2d"))
              else if xt = str "intersection3d" ∧ size_children n = 1 then
                .ok (some (str "union3d"))
              else if xt = str "intersection2d" ∧ size_children n = 1 then
                .ok (some (str "union2d"))
              else .ok (some xt)

/-- The per-node conversion step of `csg_node::to_xcsg(parent)` for a
non-root node (lines 402–757, without the recursion into the children):
the tag resolution of `emitted_tag` followed by the encoder dispatch.  A tag
in `shape_encoder_tags` runs its shape encoder (modelled separately); the
`diff`/`inte`/`mink` tag stems run the raw-child-count check of line 724
(`m_children.size() < 2` — the FULL child list, dummies included) and then
the dimension-agreement loop; the `unio`/`hull` stems run only the loop; any
other emitted tag (the `N/A` placeholders) throws `Not supported`
(line 748).  Returns the emitted tag, `none` when the node is skipped. -/
def to_xcsg_node (n : CsgNode) : Except Fault (Option (List Char)) :=
  match emitted_tag n with
  | .error e => .error e
  | .ok none => .ok none
  | .ok (some xt) =>
    if xt ∈ shape_encoder_tags then .ok (some xt)
    else if xt.take 4 = str "diff" ∨ xt.take 4 = str "inte" ∨
        xt.take 4 = str "mink" then
      if n.children.length < 2 then .error (.err (fewerMsg n.lineNo n.tag xt))
      else
        match dims_loop n.lineNo n.tag xt n.children [] with
        | .error e => .error e
        | .ok _ => .ok (some xt)
    else if xt.take 4 = str "unio" ∨ xt.take 4 = str "hull" then
      match dims_loop n.lineNo n.tag xt n.children [] with
      | .error e => .error e
      | .ok _ => .ok (some xt)
    else
      .error (.err (lineMsg n.lineNo ++ str ": Not supported : " ++ [sqc] ++
        n.tag ++ [sqc] ++ str " --> " ++ xt ++ str ": " ++ n.func))

/-- C5 counterexample: a `minkowski` node with two raw children of which one
is a dummy (empty group) — one non-dummy child only, and no
difference/intersection degradation applies — is NOT rejected: the check of
line 724 counts `m_children.size()` (dummies included), finds 2, and the
node is emitted as `minkowski3d` without any error. -/
theorem minkowski_dummy_child_counterexample :
    size_children (.mk (str "minkowski()") 3 []
      (.cons (.mk (str "group()") 4 [] .nil)
        (.cons (.mk (str "cube(size=1)") 5 [] .nil) .nil))) = 1
    ∧ to_xcsg_node (.mk (str "minkowski()") 3 []
      (.cons (.mk (str "group()") 4 [] .nil)
        (.cons (.mk (str "cube(size=1)") 5 [] .nil) .nil))) =
      .ok (some (str "minkowski3d")) := by
  exact ⟨rfl, rfl⟩

/-- C5 (amended): the fewer-than-2-children check of the
difference/intersection/minkowski branch counts the RAW child list, dummy
children included.  A node of one of these tags whose dimension resolves to
2 or 3 (a zero-dimension node is skipped without error), that is not
rewritten by the single-non-dummy-child difference/intersection degradation,
and that has fewer than 2 raw children, fails with the hard error naming the
operator (and the target tag). -/
theorem boolean_raw_child_count_amended :
    ∀ n : CsgNode,
      (n.tag = str "difference" ∨ n.tag = str "intersection" ∨
        n.tag = str "minkowski") →
      (dimension n = .ok 2 ∨ dimension n = .ok 3) →
      ¬((n.tag = str "difference" ∨ n.tag = str "intersection") ∧
        size_children n = 1) →
      n.children.length < 2 →
      ∃ xt, to_xcsg_node n = .error (.err (fewerMsg n.lineNo n.tag xt)) := by
  intro n htag hdim hdeg hcnt
  rcases htag with h | h | h <;> rcases hdim with hd | hd
  · exact ⟨str "difference2d", by
      have hsz : ¬(size_children n = 1) := fun hs => hdeg ⟨Or.inl h, hs⟩
      simp +decide [to_xcsg_node, emitted_tag, fix_tag, xmap,
        shape_encoder_tags, h, hd, hsz, hcnt]
      congr 1⟩
  · exact ⟨str "difference3d", by
      have hsz : ¬(size_children n = 1) := fun hs => hdeg ⟨Or.inl h, hs⟩
      simp +decide [to_xcsg_node, emitted_tag, fix_tag, xmap,
        shape_encoder_tags, h, hd, hsz, hcnt]
      congr 1⟩
  · exact ⟨str "intersection2d", by
      have hsz : ¬(size_children n = 1) := fun hs => hdeg ⟨Or.inr h, hs⟩
      simp +decide [to_xcsg_node, emitted_tag, fix_tag, xmap,
        shape_encoder_tags, h, hd, hsz, hcnt]
      congr 1⟩
  · exact ⟨str "intersection3d", by
      have hsz : ¬(size_children n = 1) := fun hs => hdeg ⟨Or.inr h, hs⟩
      simp +decide [to_xcsg_node, emitted_tag, fix_tag, xmap,
        shape_encoder_tags, h, hd, hsz, hcnt]
      congr 1⟩
  · exact ⟨str "minkowski2d", by
      simp +decide [to_xcsg_node, emitted_tag, fix_tag, xmap,
        shape_encoder_tags, h, hd, hcnt]
      congr 1⟩
  · exact ⟨str "minkowski3d", by
      simp +decide [to_xcsg_node, emitted_tag, fix_tag, xmap,
        shape_encoder_tags, h, hd, hcnt]
      congr 1⟩

/-- Witness for `boolean_raw_child_count_amended`: a `minkowski` node with a
single (cube) child is rejected with the line-724 error. -/
theorem boolean_raw_child_count_amended_witness :
    ∃ xt, to_xcsg_node (.mk (str "minkowski()") 3 []
        (.cons (.mk (str "cube(size=1)") 5 [] .nil) .nil)) =
      .error (.err (fewerMsg 3 (str "minkowski") xt)) := by
  exact boolean_raw_child_count_amended
    (.mk (str "minkowski()") 3 []
      (.cons (.mk (str "cube(size=1)") 5 [] .nil) .nil))
    (Or.inr (Or.inr rfl)) (Or.inr rfl) (by decide) (by decide)

/-- C6: a `difference` or `intersection` node with exactly one counted
(non-dummy) child is emitted as `union3d` when the node resolves to
dimension 3 and as `union2d` when it resolves to dimension 2 (lines
422–425): the operation degrades to a union of the corresponding dimension,
with no error. -/
theorem single_child_degrades_to_union :
    ∀ n : CsgNode,
      (n.tag = str "difference" ∨ n.tag = str "intersection") →
      size_children n = 1 →
      (dimension n = .ok 3 → emitted_tag n = .ok (some (str "union3d")))
      ∧ (dimension n = .ok 2 → emitted_tag n = .ok (some (str "union2d"))) := by
  intro n htag hsz
  constructor <;> intro hd <;> rcases htag with h | h <;>
    simp +decide [emitted_tag, fix_tag, xmap, h, hd, hsz]

/-- Witness for `single_child_degrades_to_union`: a `difference` node with a
single cube child is emitted as `union3d`. -/
theorem single_child_degrades_to_union_witness :
    emitted_tag (.mk (str "difference()") 3 []
      (.cons (.mk (str "cube(size=1)") 5 [] .nil) .nil)) =
      .ok (some (str "union3d")) := by
  exact (single_child_degrades_to_union
    (.mk (str "difference()") 3 []
      (.cons (.mk (str "cube(size=1)") 5 [] .nil) .nil))
    (Or.inl rfl) (by decide)).1 rfl

/-- C8 counterexample: (i) `fix_tag` does NOT return every template without a
trailing `'*'` unchanged: `find_first_of` locates a `'*'` anywhere, and the
LAST character is then stripped — on a node of dimension 2 the template
`a*b` (no trailing `'*'`) becomes `a*2d`; (ii) when `dimension(node)` is 0
the caller does NOT report an unresolved-wildcard error: a `union` node with
no children is skipped (line 407) with nothing emitted and no error, so the
line-755 diagnostic is never reached. -/
theorem fix_tag_counterexample :
    fix_tag (.mk (str "circle(r=1)") 2 [] .nil) (str "a*b") =
      .ok (str "a*2d")
    ∧ str "a*2d" ≠ str "a*b"
    ∧ to_xcsg_node (.mk (str "union()") 3 [] .nil) = .ok none := by
  exact ⟨rfl, by decide, rfl⟩

/-- C8 (amended): `fix_tag` returns every template containing no `'*'`
(anywhere) unchanged; for a template containing a `'*'` it strips the last
character and appends `2d`/`3d` according to `dimension(node)` (for the
mapping-table templates, whose only `'*'` is final, this is exactly the
trailing-marker behaviour); when `dimension(node)` is 0 the template is
returned unchanged — and the caller never reports the unresolved-wildcard
error, because a node of dimension 0 is skipped beforehand, emitting
nothing and raising no error. -/
theorem fix_tag_amended :
    (∀ (n : CsgNode) (t : List Char), '*' ∉ t → fix_tag n t = .ok t)
    ∧ (∀ (n : CsgNode) (t : List Char), '*' ∈ t → dimension n = .ok 2 →
        fix_tag n t = .ok (t.dropLast ++ str "2d"))
    ∧ (∀ (n : CsgNode) (t : List Char), '*' ∈ t → dimension n = .ok 3 →
        fix_tag n t = .ok (t.dropLast ++ str "3d"))
    ∧ (∀ (n : CsgNode) (t : List Char), dimension n = .ok 0 →
        fix_tag n t = .ok t)
    ∧ (∀ n : CsgNode, dimension n = .ok 0 →
        emitted_tag n = .ok none ∧ to_xcsg_node n = .ok none) := by
  refine ⟨?_, ?_, ?_, ?_, ?_⟩
  · intro n t h
    simp only [fix_tag]
    rw [if_neg h]
  · intro n t h hd
    simp +decide [fix_tag, h, hd]
  · intro n t h hd
    simp +decide [fix_tag, h, hd]
  · intro n t hd
    by_cases h : '*' ∈ t
    · simp +decide [fix_tag, h, hd]
    · simp only [fix_tag]
      rw [if_neg h]
  · intro n hd
    have he : emitted_tag n = .ok none := by
      simp +decide [emitted_tag, hd]
    exact ⟨he, by simp [to_xcsg_node, he]⟩

/-- Witness for `fix_tag_amended`: a 3-D node resolves `union*` to
`union3d`. -/
theorem fix_tag_amended_witness :
    fix_tag (.mk (str "sphere(r=1)") 2 [] .nil) (str "union*") =
      .ok (str "union3d") := by
  have h := fix_tag_amended.2.2.1 (.mk (str "sphere(r=1)") 2 [] .nil)
    (str "union*") (by decide) rfl
  exact h.trans rfl

theorem mem_insertDim_self (dims : List Nat) (d : Nat) :
    d ∈ insertDim dims d := by
  by_cases h : d ∈ dims
  · simp [insertDim, h]
  · simp [insertDim, h]

theorem insertDim_mem_mono (dims : List Nat) (d x : Nat) (h : x ∈ dims) :
    x ∈ insertDim dims d := by
  by_cases hd : d ∈ dims
  · simp [insertDim, hd, h]
  · simp [insertDim, hd]
    exact Or.inl h

theorem dims_loop_ok_aux (ln : Nat) (op xt : List Char) :
    ∀ (cs : CsgForest) (dims : List Nat) (D : Nat),
      (dims = [] ∨ dims = [D]) →
      (∀ c ∈ cs.toList, is_dummy c = false → ∃ d, dimension c = .ok d) →
      (∀ c ∈ cs.toList, is_dummy c = false →
        ∀ d, dimension c = .ok d → d = 0 ∨ d = D) →
      dims_loop ln op xt cs dims = .ok ()
  | .nil, dims, D, _, _, _ => rfl
  | .cons c cs, dims, D, hinv, hres, hagree => by
    have hmemc : c ∈ (CsgForest.cons c cs).toList := by
      simp [CsgForest.toList]
    have hres' : ∀ c' ∈ cs.toList, is_dummy c' = false →
        ∃ d, dimension c' = .ok d := by
      intro c' hm hnd
      exact hres c' (by simp [CsgForest.toList, hm]) hnd
    have hagree' : ∀ c' ∈ cs.toList, is_dummy c' = false →
        ∀ d, dimension c' = .ok d → d = 0 ∨ d = D := by
      intro c' hm hnd
      exact hagree c' (by simp [CsgForest.toList, hm]) hnd
    cases hdum : is_dummy c with
    | true =>
      simp only [dims_loop, hdum, if_true]
      exact dims_loop_ok_aux ln op xt cs dims D hinv hres' hagree'
    | false =>
      obtain ⟨d, hd⟩ := hres c hmemc hdum
      have hag := hagree c hmemc hdum d hd
      have hlen : dims.length ≤ 1 := by
        rcases hinv with h | h <;> simp [h]
      rcases hag with h0 | hD
      · -- the child contributes dimension 0: the set is unchanged
        have : ¬(0 : Nat) < d := by omega
        simp only [dims_loop, hdum, Bool.false_eq_true, if_false, hd, this]
        rw [if_neg (by omega : ¬1 < dims.length)]
        exact dims_loop_ok_aux ln op xt cs dims D hinv hres' hagree'
      · -- the child contributes D itself
        by_cases hpos : 0 < d
        · have hins : insertDim dims d = [D] := by
            rcases hinv with h | h
            · simp [insertDim, h, hD]
            · subst hD
              simp [insertDim, h]
          simp only [dims_loop, hdum, Bool.false_eq_true, if_false, hd,
            hpos, if_true, hins]
          rw [if_neg (by simp : ¬(1:Nat) < ([D] : List Nat).length)]
          exact dims_loop_ok_aux ln op xt cs [D] D (Or.inr rfl) hres' hagree'
        · simp only [dims_loop, hdum, Bool.false_eq_true, if_false, hd, hpos]
          rw [if_neg (by omega : ¬1 < dims.length)]
          exact dims_loop_ok_aux ln op xt cs dims D hinv hres' hagree'

theorem dims_loop_mixed_aux (ln : Nat) (op xt : List Char) :
    ∀ (cs : CsgForest) (dims : List Nat),
      dims.length ≤ 1 →
      (∀ c ∈ cs.toList, is_dummy c = false → ∃ d, dimension c = .ok d) →
      (((∃ c2 ∈ cs.toList, is_dummy c2 = false ∧ dimension c2 = .ok 2) ∧
        (∃ c3 ∈ cs.toList, is_dummy c3 = false ∧ dimension c3 = .ok 3))
        ∨ (∃ D ∈ dims, ∃ c' ∈ cs.toList, is_dummy c' = false ∧
            ∃ d, dimension c' = .ok d ∧ 0 < d ∧ d ≠ D)) →
      dims_loop ln op xt cs dims = .error (.err (mixedMsg ln op xt))
  | .nil, dims, hlen, hres, hprem => by
    rcases hprem with ⟨⟨c2, hm, _⟩, _⟩ | ⟨D, _, c', hm, _⟩ <;>
      simp [CsgForest.toList] at hm
  | .cons c cs, dims, hlen, hres, hprem => by
    have htl : (CsgForest.cons c cs).toList = c :: cs.toList := rfl
    have hres' : ∀ c' ∈ cs.toList, is_dummy c' = false →
        ∃ d, dimension c' = .ok d := by
      intro c' hm hnd
      exact hres c' (by simp [htl, hm]) hnd
    cases hdum : is_dummy c with
    | true =>
      simp only [dims_loop, hdum, if_true]
      apply dims_loop_mixed_aux ln op xt cs dims hlen hres'
      rcases hprem with ⟨⟨c2, hm2, hnd2, hd2⟩, ⟨c3, hm3, hnd3, hd3⟩⟩ |
        ⟨D, hmD, c', hm', hnd', hrest⟩
      · rw [htl] at hm2 hm3
        rcases List.mem_cons.mp hm2 with rfl | h2
        · rw [hnd2] at hdum; simp at hdum
        · rcases List.mem_cons.mp hm3 with rfl | h3
          · rw [hnd3] at hdum; simp at hdum
          · exact Or.inl ⟨⟨c2, h2, hnd2, hd2⟩, ⟨c3, h3, hnd3, hd3⟩⟩
      · rw [htl] at hm'
        rcases List.mem_cons.mp hm' with rfl | h'
        · rw [hnd'] at hdum; simp at hdum
        · exact Or.inr ⟨D, hmD, c', h', hnd', hrest⟩
    | false =>
      obtain ⟨d, hd⟩ := hres c (by simp [htl]) hdum
      simp only [dims_loop, hdum, Bool.false_eq_true, if_false, hd]
      set dims1 := (if 0 < d then insertDim dims d else dims) with hdims1
      by_cases hbig : 1 < dims1.length
      · rw [if_pos hbig]
      · rw [if_neg hbig]
        apply dims_loop_mixed_aux ln op xt cs dims1 (by omega) hres'
        rcases hprem with ⟨⟨c2, hm2, hnd2, hd2⟩, ⟨c3, hm3, hnd3, hd3⟩⟩ |
          ⟨D, hmD, c', hm', hnd', d', hd', hpos', hne'⟩
        · rw [htl] at hm2 hm3
          rcases List.mem_cons.mp hm2 with rfl | h2
          · -- the head child itself has dimension 2
            have hdd : d = 2 := by
              rw [hd] at hd2; simpa using hd2
            rcases List.mem_cons.mp hm3 with rfl | h3
            · have hdd3 : d = 3 := by
                rw [hd] at hd3; simpa using hd3
              omega
            · refine Or.inr ⟨2, ?_, c3, h3, hnd3, 3, hd3, by omega, by omega⟩
              rw [hdims1, hdd]
              simp only [Nat.zero_lt_succ, if_true]
              exact mem_insertDim_self dims 2
          · rcases List.mem_cons.mp hm3 with rfl | h3
            · -- the head child itself has dimension 3
              have hdd : d = 3 := by
                rw [hd] at hd3; simpa using hd3
              refine Or.inr ⟨3, ?_, c2, h2, hnd2, 2, hd2, by omega, by omega⟩
              rw [hdims1, hdd]
              simp only [Nat.zero_lt_succ, if_true]
              exact mem_insertDim_self dims 3
            · exact Or.inl ⟨⟨c2, h2, hnd2, hd2⟩, ⟨c3, h3, hnd3, hd3⟩⟩
        · rw [htl] at hm'
          rcases List.mem_cons.mp hm' with rfl | h'
          · -- the head child is the disagreeing one: the set must have grown
            -- past one element, contradicting the taken branch
            exfalso
            have hdd : d = d' := by
              rw [hd] at hd'; simpa using hd'
            subst hdd
            by_cases hmem : d ∈ dims
            · rcases dims with _ | ⟨x, xs⟩
              · simp at hmD
              · have hxs : xs = [] := by
                  simp only [List.length_cons] at hlen
                  rcases xs with _ | ⟨y, ys⟩
                  · rfl
                  · simp only [List.length_cons] at hlen
                    omega
                subst hxs
                rw [List.mem_singleton] at hmD hmem
                exact hne' (hmem.trans hmD.symm)
            · have h1 : dims1.length = dims.length + 1 := by
                rw [hdims1]
                simp only [hpos', if_true]
                simp [insertDim, hmem]
              have h2 : 0 < dims.length :=
                List.length_pos.mpr (List.ne_nil_of_mem hmD)
              omega
          · refine Or.inr ⟨D, ?_, c', h', hnd', d', hd', hpos', hne'⟩
            rw [hdims1]
            by_cases hp : 0 < d
            · simp only [hp, if_true]
              exact insertDim_mem_mono dims d D hmD
            · simp only [hp, if_false]
              exact hmD

/-- C7: For a node of the boolean-operator family, the dimension-agreement
check over its children (`dims_loop`, the loop duplicated verbatim at lines
725–732 for difference/intersection/minkowski and lines 738–745 for
union/hull): when the children all resolve and two non-dummy children
resolve to the different non-zero dimensions 2 and 3, the loop fails with
the hard error naming the operator; when every non-dummy child's non-zero
dimension agrees on one value, no error is raised. -/
theorem mixed_dimension_check :
    ∀ (ln : Nat) (op xt : List Char) (cs : CsgForest),
      (∀ c ∈ cs.toList, is_dummy c = false → ∃ d, dimension c = .ok d) →
      ((∃ c2 ∈ cs.toList, is_dummy c2 = false ∧ dimension c2 = .ok 2) →
        (∃ c3 ∈ cs.toList, is_dummy c3 = false ∧ dimension c3 = .ok 3) →
        dims_loop ln op xt cs [] = .error (.err (mixedMsg ln op xt)))
      ∧ ((∃ D : Nat, ∀ c ∈ cs.toList, is_dummy c = false →
            ∀ d, dimension c = .ok d → d = 0 ∨ d = D) →
        dims_loop ln op xt cs [] = .ok ()) := by
  intro ln op xt cs hres
  constructor
  · intro h2 h3
    exact dims_loop_mixed_aux ln op xt cs [] (by simp) hres (Or.inl ⟨h2, h3⟩)
  · intro hD
    obtain ⟨D, hD⟩ := hD
    exact dims_loop_ok_aux ln op xt cs [] D (Or.inl rfl) hres hD

/-- Witness for `mixed_dimension_check`: a 2-D `circle` child next to a 3-D
`cube` child triggers the mixed-dimension error. -/
theorem mixed_dimension_check_witness :
    dims_loop 9 (str "union") (str "union3d")
      (.cons (.mk (str "circle(r=1)") 10 [] .nil)
        (.cons (.mk (str "cube(size=1)") 11 [] .nil) .nil)) [] =
      .error (.err (mixedMsg 9 (str "union") (str "union3d"))) := by
  refine (mixed_dimension_check 9 (str "union") (str "union3d") _ ?_).1 ?_ ?_
  · intro c hm hnd
    simp [CsgForest.toList] at hm
    rcases hm with rfl | rfl
    · exact ⟨2, rfl⟩
    · exact ⟨3, rfl⟩
  · exact ⟨.mk (str "circle(r=1)") 10 [] .nil,
      by simp [CsgForest.toList], rfl, rfl⟩
  · exact ⟨.mk (str "cube(size=1)") 11 [] .nil,
      by simp [CsgForest.toList], rfl, rfl⟩

/-- Modelled from the spec (§4.6): `csg_matrix<4,4>` is a 4×4 matrix of
doubles (exact: ℚ) whose default construction is the identity — required for
the corrective rotation of lines 653–657, which overwrites only the four
entries (1,1), (1,2), (2,1), (2,2) of a fresh matrix. -/
def Mat4 : Type := Fin 4 → Fin 4 → ℚ

def mat4_id : Mat4 := fun i j => if i = j then 1 else 0

/-- Modelled from the spec (§4.6): `csg_matrix_mult` is standard matrix
multiplication ("composed via standard matrix multiplication"). -/
def mat4_mul (a b : Mat4) : Mat4 := fun i k => ∑ j : Fin 4, a i j * b j k

/-- The corrective matrix `rotx` built at lines 653–657: a default (identity)
matrix with `rotx(1,1)=0`, `rotx(1,2)=1`, `rotx(2,1)=-1`, `rotx(2,2)=0`. -/
def rotx_matrix : Mat4 := fun i j =>
  if i = 1 ∧ j = 1 then 0
  else if i = 1 ∧ j = 2 then 1
  else if i = 2 ∧ j = 1 then -1
  else if i = 2 ∧ j = 2 then 0
  else mat4_id i j

/-- The spec's corrective rotation, stated from its words: the rotation by
−90° about the X axis as a homogeneous 4×4 matrix — the standard
rotation-about-X block `[[1,0,0],[0,cos θ,−sin θ],[0,sin θ,cos θ]]` at
`θ = −90°` (cos θ = 0, sin θ = −1), bordered by the homogeneous row and
column. -/
def rotX_neg90_spec : Mat4 := fun i j =>
  if i = 0 then (if j = 0 then 1 else 0)
  else if i = 1 then (if j = 2 then 1 else 0)
  else if i = 2 then (if j = 1 then -1 else 0)
  else (if j = 3 then 1 else 0)

/-- The transform update of the `rotate_extrude` encoder (lines 658–660):
`if(m_has_matrix) m_matrix = csg_matrix_mult(rotx, m_matrix); else m_matrix
= rotx; m_has_matrix = true;` applied to the node's
`(m_has_matrix, m_matrix)` state. -/
def rotate_extrude_update (has_matrix : Bool) (m : Mat4) : Bool × Mat4 :=
  if has_matrix then (true, mat4_mul rotx_matrix m) else (true, rotx_matrix)

/-- C9: the rotate_extrude encoder composes the fixed corrective rotation
R = −90° about the local X axis into the node's transform: when the node
already carries an explicit parameter-derived matrix M, the result is R·M
(R pre-multiplied, the left operand); otherwise R becomes the node's sole
transform; in both cases `m_has_matrix` is set. -/
theorem rotate_extrude_corrective_rotation :
    rotx_matrix = rotX_neg90_spec
    ∧ (∀ m : Mat4, rotate_extrude_update true m =
        (true, mat4_mul rotX_neg90_spec m))
    ∧ (∀ m : Mat4, rotate_extrude_update false m = (true, rotX_neg90_spec)) := by
  have hR : rotx_matrix = rotX_neg90_spec := by
    funext i j
    fin_cases i <;> fin_cases j <;> rfl
  refine ⟨hR, ?_, ?_⟩
  · intro m
    simp [rotate_extrude_update, hR]
  · intro m
    simp [rotate_extrude_update, hR]
